import Mathlib

/-!
Verification development for a single-user personal budget tracker
(`app.py`).  The application keeps one in-memory transaction table per
session, persists it to a per-user CSV file after every mutation,
maintains a global log of usernames, computes income/expense/balance
aggregates, and renders a PDF report.

The embedding below translates the Python source into Lean:
pure string normalisation (`str.strip`, `str.title` for ASCII input),
the transaction table as a `List Transaction`, the per-user CSV file as
a list of typed rows (the date and amount columns are abstracted as
round-tripping exactly, which matches pandas behaviour for datetime and
float columns), and the PDF as the list of text lines (each line a list
of cell strings) emitted by the successive `pdf.cell` calls.  Loading
models `pd.read_csv`'s handling of the Type and Category columns: the
default NA tokens (an empty cell, "None", "NA", ...) are read back as
missing data, and a dtype is inferred per column in the parser's try
order int64 / float64 / bool / object, so an all-numeric column such as
a lone category "007" is reloaded as numbers (7), not as the original
strings; only a column that stays `object` keeps its text verbatim.
-/

namespace BudgetTracker

/-- Whitespace characters removed by Python's `str.strip()` (ASCII set). -/
def pyIsSpace (c : Char) : Bool :=
  c == ' ' || c == '\t' || c == '\n' || c == '\x0d' || c == '\x0b' || c == '\x0c'

/-- Python `str.strip()` on the character list: drop leading and trailing
whitespace. -/
def pyStrip (s : List Char) : List Char :=
  (((s.dropWhile pyIsSpace).reverse).dropWhile pyIsSpace).reverse

/-- Worker for Python `str.title()`: the Boolean records whether the previous
character was alphabetic; an alphabetic character after a non-alphabetic one is
uppercased, any other alphabetic character is lowercased (ASCII). -/
def pyTitleAux : Bool → List Char → List Char
  | _, [] => []
  | prev, c :: cs =>
      (if c.isAlpha then (if prev then c.toLower else c.toUpper) else c) ::
        pyTitleAux c.isAlpha cs

/-- Python `str.title()` on the character list. -/
def pyTitle (s : List Char) : List Char := pyTitleAux false s

/-- Python `str.strip()` on `String`. -/
def pyStripStr (s : String) : String := ⟨pyStrip s.data⟩

/-- Python `str.title()` on `String`. -/
def pyTitleStr (s : String) : String := ⟨pyTitle s.data⟩

/-- `category.strip().title()` — the normalisation the app applies to the
category field in both the add handler (app.py line 69) and the edit handler
(app.py line 105). -/
def normCat (s : String) : String := pyTitleStr (pyStripStr s)

/-- A calendar date as produced by `st.date_input` / `pd.to_datetime`
(the app only ever stores midnight timestamps, so the date triple is the
whole content). -/
structure Date where
  year : Nat
  month : Nat
  day : Nat
deriving DecidableEq, Repr

/-- One row of the in-memory transaction table (`st.session_state["df"]`),
with the four columns Date, Type, Category, Amount of app.py line 48.
`ttype` models the "Type" column (a string, `"Income"` or `"Expense"` as
supplied by the selectbox); `amount` models the float Amount column as an
exact rational. -/
structure Transaction where
  date : Date
  ttype : String
  category : String
  amount : ℚ
deriving DecidableEq, Repr

/-- One row of the per-user CSV file written by `DataFrame.to_csv`
(app.py lines 73, 93, 108): same columns; the Date cell is abstracted as the
calendar date it serialises to (pandas datetime serialisation round-trips
through `pd.to_datetime`), the Amount cell as the rational it denotes
(pandas float serialisation round-trips), and the two string cells as the
literal cell text (CSV quoting round-trips arbitrary text). -/
structure FileRow where
  date : Date
  ttype : String
  category : String
  amount : ℚ
deriving DecidableEq, Repr

/-- pandas's default `na_values` token list: a cell equal to one of these
is read back by `pd.read_csv` as missing data (NaN), not as the original
string. -/
def naTokens : List String :=
  ["", "#N/A", "#N/A N/A", "#NA", "-1.#IND", "-1.#QNAN", "-NaN", "-nan",
   "1.#IND", "1.#QNAN", "<NA>", "N/A", "NA", "NULL", "NaN", "None",
   "n/a", "nan", "null"]

/-- Digit run to its numeric value. -/
def digitsToNat (ds : List Char) : Nat :=
  ds.foldl (fun a c => a * 10 + (c.toNat - 48)) 0

/-- The integer a cell parses to under `pd.read_csv`'s int64 column
conversion, when it parses: optional surrounding whitespace, optional sign,
then digits.  (Over-acceptance relative to the pandas tokenizer — e.g. of
surrounding whitespace — is deliberate: the round-trip theorems rely only
on parse *failure*, so accepting a superset keeps them sound.) -/
def parseIntCell (s : String) : Option Int :=
  let l := pyStrip s.data
  match l with
  | [] => none
  | c :: cs =>
      let ds := if c == '+' || c == '-' then cs else l
      if !ds.isEmpty && ds.all Char.isDigit then
        some (if c == '-' then -(digitsToNat ds : Int) else (digitsToNat ds : Int))
      else none

/-- Whether a cell parses as an int64 entry. -/
def intLike (s : String) : Bool := (parseIntCell s).isSome

/-- The special float words the pandas double parser recognises
(case-insensitively): infinity and nan spellings. -/
def floatWord (l : List Char) : Bool :=
  let w := l.map Char.toLower
  w == "inf".data || w == "infinity".data || w == "nan".data

/-- Optional exponent suffix of a float cell: empty, or `e`/`E`, an
optional sign, and at least one digit. -/
def expOk (l : List Char) : Bool :=
  match l with
  | [] => true
  | e :: rest =>
      (e == 'e' || e == 'E') &&
        (let ds := match rest with
                   | c :: cs => if c == '+' || c == '-' then cs else rest
                   | [] => []
         !ds.isEmpty && ds.all Char.isDigit)

/-- Unsigned float body: digits, optionally a decimal point with more
digits (at least one digit on some side), then an optional exponent. -/
def floatBody (l : List Char) : Bool :=
  let ip := l.takeWhile Char.isDigit
  let r1 := l.dropWhile Char.isDigit
  match r1 with
  | '.' :: r2 =>
      let fp := r2.takeWhile Char.isDigit
      let r3 := r2.dropWhile Char.isDigit
      (!ip.isEmpty || !fp.isEmpty) && expOk r3
  | _ => !ip.isEmpty && expOk r1

/-- Whether a cell parses as a float64 entry: optional surrounding
whitespace, optional sign, then a float body or an infinity/nan word.
(Again deliberately generous; only failure is relied on.) -/
def floatLike (s : String) : Bool :=
  let l := pyStrip s.data
  let body := match l with
              | c :: cs => if c == '+' || c == '-' then cs else l
              | [] => []
  floatWord body || floatBody body

/-- Whether a cell is one of the boolean words the pandas parser converts
in a boolean column (generously including the lowercase forms). -/
def boolLike (s : String) : Bool :=
  s == "True" || s == "False" || s == "TRUE" || s == "FALSE" ||
    s == "true" || s == "false"

/-- The dtype `pd.read_csv` infers for one text column, in the parser's
try order: int64 when every cell is an integer (an NA token is not, so any
missing value rules int64 out); float64 when every cell is a float or an
NA token; bool when every cell is a boolean word or an NA token; otherwise
the column stays `object` and keeps its strings. -/
inductive ColMode where
  | ints
  | floats
  | bools
  | strs
deriving DecidableEq, Repr

/-- Column dtype inference of `pd.read_csv` for a string column. -/
def colMode (cells : List String) : ColMode :=
  if cells.all intLike then ColMode.ints
  else if cells.all (fun c => if c ∈ naTokens then true else floatLike c) then ColMode.floats
  else if cells.all (fun c => if c ∈ naTokens then true else boolLike c) then ColMode.bools
  else ColMode.strs

/-- One loaded cell of a text column.  `na` is missing data (NaN) whatever
the column dtype.  `intVal` carries the parsed integer — this is where a
cell like `"007"` comes back as the number `7`.  `floatVal` abstracts the
parsed double by its source text (no claim depends on float cell values,
only on the cell no longer being the original string).  `str` is a cell of
an `object` column, kept verbatim. -/
inductive Cell where
  | na
  | intVal (n : Int)
  | floatVal (text : String)
  | boolVal (b : Bool)
  | str (s : String)
deriving DecidableEq, Repr

/-- How one cell of a column with inferred dtype `m` is materialised. -/
def readCellIn (m : ColMode) (s : String) : Cell :=
  match m with
  | ColMode.ints => Cell.intVal ((parseIntCell s).getD 0)
  | ColMode.floats => if s ∈ naTokens then Cell.na else Cell.floatVal s
  | ColMode.bools =>
      if s ∈ naTokens then Cell.na
      else Cell.boolVal (s == "True" || s == "TRUE" || s == "true")
  | ColMode.strs => if s ∈ naTokens then Cell.na else Cell.str s

/-- One row as it comes back from `pd.read_csv` (app.py line 46): the Type
and Category cells carry whatever the column-level dtype inference made of
them. -/
structure LoadedRow where
  date : Date
  ttype : Cell
  category : Cell
  amount : ℚ
deriving DecidableEq, Repr

/-- `DataFrame.to_csv(filename, index=False)`: serialise the table,
one file row per transaction, in order. -/
def saveTable (df : List Transaction) : List FileRow :=
  df.map fun t => ⟨t.date, t.ttype, t.category, t.amount⟩

/-- `pd.read_csv(filename)` followed by `pd.to_datetime(df["Date"])`
(app.py lines 46, 51): infer a dtype for the Type column and for the
Category column from all their cells, then materialise the rows in order.
(The Date column is never numeric and `pd.to_datetime` restores the stored
date exactly; the Amount column is all-float and round-trips exactly, kept
here as ℚ.) -/
def loadTable (file : List FileRow) : List LoadedRow :=
  let mt := colMode (file.map fun r => r.ttype)
  let mc := colMode (file.map fun r => r.category)
  file.map fun r => ⟨r.date, readCellIn mt r.ttype, readCellIn mc r.category, r.amount⟩

/-- The shape a transaction takes after a lossless save/load round trip. -/
def toLoaded (t : Transaction) : LoadedRow :=
  ⟨t.date, Cell.str t.ttype, Cell.str t.category, t.amount⟩

/-- A plain text cell: not an NA token and not integer-, float- or
boolean-parseable, so it can only live in an `object` column and survives
the CSV round trip verbatim. -/
def plainCell (s : String) : Prop :=
  s ∉ naTokens ∧ intLike s = false ∧ floatLike s = false ∧ boolLike s = false

instance (s : String) : Decidable (plainCell s) := by
  unfold plainCell; infer_instance

/-- A transaction whose Type and Category are plain text cells. -/
def plainRow (t : Transaction) : Prop :=
  plainCell t.ttype ∧ plainCell t.category

instance (t : Transaction) : Decidable (plainRow t) := by
  unfold plainRow; infer_instance

/-- The session state the handlers mutate: the in-memory table
(`st.session_state["df"]`), the per-user transaction CSV (`none` when the
file does not exist yet), and the per-user PDF report file. -/
structure AppState where
  df : List Transaction
  userFile : Option (List FileRow)
  reportFile : Option (List (List String))
deriving DecidableEq

/-- The add handler (app.py lines 64-77): Python's
`if category and amount > 0` admits any non-empty raw category string and
any strictly positive amount; on success it appends the new row (category
normalised by `strip().title()`) and writes the CSV; otherwise it only
surfaces a warning and changes nothing. -/
def addHandler (s : AppState) (t_type : String) (category : String)
    (amount : ℚ) (d : Date) : AppState :=
  if category ≠ "" ∧ 0 < amount then
    let df := s.df ++ [⟨d, t_type, normCat category, amount⟩]
    { s with df := df, userFile := some (saveTable df) }
  else
    s

/-- The delete handler (app.py lines 91-95): `df.drop(index=i)` followed by
`reset_index(drop=True)` removes row `i` and compacts the positional
indices, then writes the CSV. -/
def deleteHandler (s : AppState) (i : Nat) : AppState :=
  let df := s.df.eraseIdx i
  { s with df := df, userFile := some (saveTable df) }

/-- The edit handler (app.py lines 103-110): the four `df.at` assignments
replace the fields of row `i` with the new values (category normalised by
`strip().title()`), with no validation of any kind, then write the CSV. -/
def editHandler (s : AppState) (i : Nat) (t_type : String) (category : String)
    (amount : ℚ) (d : Date) : AppState :=
  let df := s.df.set i ⟨d, t_type, normCat category, amount⟩
  { s with df := df, userFile := some (saveTable df) }

/-- `df[df["Type"] == "Income"]["Amount"].sum()` (app.py line 117). -/
def income (df : List Transaction) : ℚ :=
  ((df.filter fun t => t.ttype == "Income").map fun t => t.amount).sum

/-- `df[df["Type"] == "Expense"]["Amount"].sum()` (app.py line 118). -/
def expenses (df : List Transaction) : ℚ :=
  ((df.filter fun t => t.ttype == "Expense").map fun t => t.amount).sum

/-- `balance = income - expenses` (app.py line 119). -/
def balance (df : List Transaction) : ℚ := income df - expenses df

/-- Floor of a rational, computed directly from its numerator and
denominator by flooring integer division. -/
def floorQ (q : ℚ) : Int := q.num.fdiv q.den

/-- Python's `f"{x:.2f}"` on an exact rational: round to cents and print
with exactly two digits after the point. -/
def fmt2 (q : ℚ) : String :=
  let n : Int := floorQ (q * 100 + 1 / 2)
  let m := n.natAbs
  (if n < 0 then "-" else "") ++ toString (m / 100) ++ "." ++
    (if m % 100 < 10 then "0" else "") ++ toString (m % 100)

/-- Zero-padded two-digit rendering, as in ISO date components. -/
def pad2 (n : Nat) : String := (if n < 10 then "0" else "") ++ toString n

/-- Zero-padded four-digit rendering, as in ISO years. -/
def pad4 (n : Nat) : String :=
  (if n < 10 then "000" else if n < 100 then "00" else
    if n < 1000 then "0" else "") ++ toString n

/-- Python's `str(row["Date"].date())`: the ISO `YYYY-MM-DD` form. -/
def dateStr (d : Date) : String :=
  pad4 d.year ++ "-" ++ pad2 d.month ++ "-" ++ pad2 d.day

/-- The four cells one transaction contributes to the PDF grid
(app.py lines 165-170): date, type, category, and the amount with the
currency symbol and two decimals. -/
def pdfRow (t : Transaction) : List String :=
  [dateStr t.date, t.ttype, t.category, "Rs. " ++ fmt2 t.amount]

/-- `generate_pdf` (app.py lines 145-174), as the sequence of text lines the
successive `pdf.cell`/`pdf.ln` calls emit (each line a list of cell strings):
the title naming `username.title()`, the three summary lines, the header row,
then one grid row per transaction in the order of `dataframe.iterrows()`,
i.e. in the dataframe's own row order. -/
def generate_pdf (username : String) (dataframe : List Transaction)
    (total_income total_expenses balance_amt : ℚ) : List (List String) :=
  [pyTitleStr username ++ "\x27s Budget Report"] ::
  ["Total Income: Rs. " ++ fmt2 total_income] ::
  ["Total Expenses: Rs. " ++ fmt2 total_expenses] ::
  ["Current Balance: Rs. " ++ fmt2 balance_amt] ::
  ["Date", "Type", "Category", "Amount"] ::
  dataframe.map pdfRow

/-- The Generate PDF Report button handler (app.py lines 176-181): it calls
`generate_pdf(df, income, expenses, balance)` on the current table and the
aggregates computed from it, writing only the per-user report file; the
table and the transaction CSV are not touched. -/
def reportHandler (username : String) (s : AppState) : AppState :=
  let rep := generate_pdf username s.df (income s.df) (expenses s.df) (balance s.df)
  { s with reportFile := some rep }

/-- Sort key for dates: lexicographic year, month, day. -/
def dateKey (d : Date) : Nat := d.year * 10000 + d.month * 100 + d.day

/-- Insert one transaction into a date-sorted list, keeping it sorted. -/
def insertByDate (t : Transaction) : List Transaction → List Transaction
  | [] => [t]
  | u :: us =>
      if dateKey t.date ≤ dateKey u.date then t :: u :: us
      else u :: insertByDate t us

/-- Stable insertion sort of a table by ascending date. -/
def sortByDate : List Transaction → List Transaction
  | [] => []
  | t :: ts => insertByDate t (sortByDate ts)

/-- Follows the spec's words (§4.4: "one row per transaction in the table's
current display order (sorted by date ascending)"): the grid rows the report
would contain if the table were sorted by date ascending before rendering.
Used only to compare the renderer's actual output against this reading. -/
def specSortedRows (df : List Transaction) : List (List String) :=
  (sortByDate df).map pdfRow

/-- The username-registration block (app.py lines 38-42).  The global log is
the list of raw file lines (without their trailing newlines); the code reads
the lines back stripped, checks membership of the raw username among the
stripped lines, and on a miss appends the raw username as a new line. -/
def registerUsername (log : List String) (username : String) : List String :=
  if username ∈ log.map pyStripStr then log else log ++ [username]

/-- The stored-record invariant from the spec's data model: strictly
positive amount and non-empty category. -/
def invariantHolds (t : Transaction) : Prop := 0 < t.amount ∧ t.category ≠ ""

instance (t : Transaction) : Decidable (invariantHolds t) := by
  unfold invariantHolds; infer_instance

/-! ### Helper lemmas -/

theorem addHandler_df (s : AppState) (t_type category : String) (amount : ℚ)
    (d : Date) :
    (addHandler s t_type category amount d).df =
      if category ≠ "" ∧ 0 < amount then
        s.df ++ [⟨d, t_type, normCat category, amount⟩]
      else s.df := by
  unfold addHandler; split <;> rfl

theorem pyTitleAux_ne_nil {b : Bool} {l : List Char} (h : l ≠ []) :
    pyTitleAux b l ≠ [] := by
  cases l with
  | nil => exact absurd rfl h
  | cons c cs => simp [pyTitleAux]

theorem normCat_ne_empty {s : String} (h : pyStripStr s ≠ "") : normCat s ≠ "" := by
  intro hc
  apply pyTitleAux_ne_nil (b := false) (l := pyStrip s.data)
  · intro hnil
    apply h
    rw [String.ext_iff]
    exact hnil
  · rw [String.ext_iff] at hc
    exact hc

theorem colMode_eq_strs {cells : List String} {c : String} (hc : c ∈ cells)
    (hp : plainCell c) : colMode cells = ColMode.strs := by
  obtain ⟨hna, hint, hfloat, hbool⟩ := hp
  have h1 : ¬ (cells.all intLike = true) := fun hall => by
    have h := List.all_eq_true.mp hall c hc
    rw [hint] at h
    exact Bool.false_ne_true h
  have h2 : ¬ (cells.all (fun x => if x ∈ naTokens then true else floatLike x) = true) :=
    fun hall => by
      have h := List.all_eq_true.mp hall c hc
      rw [if_neg hna, hfloat] at h
      exact Bool.false_ne_true h
  have h3 : ¬ (cells.all (fun x => if x ∈ naTokens then true else boolLike x) = true) :=
    fun hall => by
      have h := List.all_eq_true.mp hall c hc
      rw [if_neg hna, hbool] at h
      exact Bool.false_ne_true h
  unfold colMode
  rw [if_neg h1, if_neg h2, if_neg h3]

theorem loadTable_saveTable {df : List Transaction}
    (h : ∀ t ∈ df, plainRow t) :
    loadTable (saveTable df) = df.map toLoaded := by
  cases df with
  | nil => rfl
  | cons t ts =>
      have hpt : plainRow t := h t (List.mem_cons_self t ts)
      have hmemT : t.ttype ∈ (saveTable (t :: ts)).map fun r => r.ttype := by
        simp [saveTable]
      have hmemC : t.category ∈ (saveTable (t :: ts)).map fun r => r.category := by
        simp [saveTable]
      have hmt := colMode_eq_strs hmemT hpt.1
      have hmc := colMode_eq_strs hmemC hpt.2
      simp only [loadTable]
      rw [hmt, hmc]
      simp only [saveTable, List.map_map]
      refine List.map_congr_left fun u hu => ?_
      have hpu : plainRow u := h u hu
      simp [Function.comp, readCellIn, toLoaded, hpu.1.1, hpu.2.1]

/-! ### Claim theorems -/

/-- C9: for every table state, `income − expenses = balance`, and on the
empty table all three aggregates are `0`.  In the code (app.py lines
117-119) `balance` is computed as exactly this difference, and the filtered
sums over an empty dataframe are zero. -/
theorem income_minus_expenses_eq_balance :
    (∀ df : List Transaction, income df - expenses df = balance df) ∧
    income [] = 0 ∧ expenses [] = 0 ∧ balance [] = 0 :=
  ⟨fun _ => rfl, rfl, rfl, by norm_num [balance, income, expenses]⟩

/-- C10: generating the PDF report is read-only on the transaction table and
the per-user transaction file: the button handler (app.py lines 176-181)
only renders the current table and aggregates into the per-user report file,
leaving `st.session_state["df"]` and the transaction CSV untouched. -/
theorem report_preserves_table_and_file (username : String) (s : AppState) :
    (reportHandler username s).df = s.df ∧
    (reportHandler username s).userFile = s.userFile ∧
    (reportHandler username s).reportFile =
      some (generate_pdf username s.df (income s.df) (expenses s.df) (balance s.df)) :=
  ⟨rfl, rfl, rfl⟩

/-- C6: for every table state and every input with `amount > 0` and a
non-empty category string, the add handler appends exactly one row at the
end of the table, whose fields are the inputs with the category normalised
by `strip().title()` (app.py lines 64-73). -/
theorem add_valid_appends_row (s : AppState) (t_type category : String)
    (amount : ℚ) (d : Date) (hcat : category ≠ "") (hamt : 0 < amount) :
    (addHandler s t_type category amount d).df =
      s.df ++ [⟨d, t_type, normCat category, amount⟩] ∧
    (addHandler s t_type category amount d).df.length = s.df.length + 1 := by
  have hdf := addHandler_df s t_type category amount d
  rw [if_pos ⟨hcat, hamt⟩] at hdf
  exact ⟨hdf, by rw [hdf]; simp⟩

/-- Witness for C6 at a concrete input. -/
theorem add_valid_appends_row_witness :
    ("Food" : String) ≠ "" ∧ (0 : ℚ) < 2 ∧
    ((addHandler ⟨[], none, none⟩ "Income" "Food" 2 ⟨2024, 1, 1⟩).df =
        ([] : List Transaction) ++ [⟨⟨2024, 1, 1⟩, "Income", normCat "Food", 2⟩] ∧
      (addHandler ⟨[], none, none⟩ "Income" "Food" 2 ⟨2024, 1, 1⟩).df.length =
        ([] : List Transaction).length + 1) :=
  ⟨by decide, by decide,
    add_valid_appends_row ⟨[], none, none⟩ "Income" "Food" 2 ⟨2024, 1, 1⟩
      (by decide) (by decide)⟩

/-- C7: for every state and every input with `amount ≤ 0` or an empty
category string, the add handler is a no-op: Python's
`if category and amount > 0` (app.py line 65) fails, so the table, the
stored file and the report are all left unchanged and only a warning is
shown (app.py line 77). -/
theorem add_invalid_noop (s : AppState) (t_type category : String)
    (amount : ℚ) (d : Date) (h : amount ≤ 0 ∨ category = "") :
    addHandler s t_type category amount d = s := by
  unfold addHandler
  rw [if_neg]
  rintro ⟨hcat, hamt⟩
  rcases h with h | h
  · exact absurd hamt (not_lt.mpr h)
  · exact hcat h

/-- Witness for C7 at a concrete input (zero amount). -/
theorem add_invalid_noop_witness :
    ((0 : ℚ) ≤ 0 ∨ ("Food" : String) = "") ∧
    addHandler ⟨[], none, none⟩ "Income" "Food" 0 ⟨2024, 1, 1⟩ = ⟨[], none, none⟩ :=
  ⟨Or.inl (by decide),
    add_invalid_noop ⟨[], none, none⟩ "Income" "Food" 0 ⟨2024, 1, 1⟩
      (Or.inl (by decide))⟩

/-- C1 counterexample: the add handler validates the raw category string
(Python truthiness, app.py line 65), so the whitespace-only category `" "`
with amount `1` passes validation and `strip().title()` then stores a record
whose category is the empty string — the invariant is not preserved for
whitespace-only category inputs. -/
theorem add_whitespace_category_breaks_invariant :
    (addHandler ⟨[], none, none⟩ "Income" " " 1 ⟨2024, 1, 1⟩).df =
      [⟨⟨2024, 1, 1⟩, "Income", "", 1⟩] ∧
    ¬ invariantHolds ⟨⟨2024, 1, 1⟩, "Income", "", 1⟩ := by
  constructor <;> decide

/-- C1 (amended): every record stored by the add handler satisfies
`amount > 0` and non-empty category, and the invariant is preserved by add,
provided the input category contains at least one non-whitespace character;
(whitespace-only categories pass validation but are stored empty, and the
edit handler performs no validation at all, so neither preserves the
invariant unconditionally). -/
theorem add_preserves_invariant (s : AppState) (t_type category : String)
    (amount : ℚ) (d : Date)
    (hinv : ∀ t ∈ s.df, invariantHolds t)
    (hcat : pyStripStr category ≠ "") :
    ∀ t ∈ (addHandler s t_type category amount d).df, invariantHolds t := by
  intro t ht
  rw [addHandler_df] at ht
  by_cases hv : category ≠ "" ∧ 0 < amount
  · rw [if_pos hv] at ht
    rcases List.mem_append.mp ht with hmem | hmem
    · exact hinv t hmem
    · rw [List.mem_singleton] at hmem
      subst hmem
      exact ⟨hv.2, normCat_ne_empty hcat⟩
  · rw [if_neg hv] at ht
    exact hinv t ht

/-- Witness for the amended C1 at a concrete input. -/
theorem add_preserves_invariant_witness :
    (∀ t ∈ ([] : List Transaction), invariantHolds t) ∧
    pyStripStr "Food" ≠ "" ∧
    ∀ t ∈ (addHandler ⟨[], none, none⟩ "Income" "Food" 2 ⟨2024, 1, 1⟩).df,
      invariantHolds t :=
  ⟨by decide, by decide,
    add_preserves_invariant ⟨[], none, none⟩ "Income" "Food" 2 ⟨2024, 1, 1⟩
      (by decide) (by decide)⟩

/-- C2 counterexample: the Save Changes handler (app.py lines 103-110) has
no validation branch at all.  Editing the only row of a valid table with the
empty category and amount `0` is not a no-op: the stored row is overwritten
with the invalid fields. -/
theorem edit_accepts_invalid_input :
    (editHandler ⟨[⟨⟨2024, 1, 1⟩, "Income", "Food", 5⟩], none, none⟩
        0 "Income" "" 0 ⟨2024, 1, 1⟩).df =
      [⟨⟨2024, 1, 1⟩, "Income", "", 0⟩] ∧
    ([⟨⟨2024, 1, 1⟩, "Income", "", 0⟩] : List Transaction) ≠
      [⟨⟨2024, 1, 1⟩, "Income", "Food", 5⟩] := by
  constructor <;> decide

/-- C2 (amended): the edit handler performs no validation: for every index
of an existing row and every input — valid or not — it replaces exactly the
row at that index with the fields (date, type, `strip().title()`-normalised
category, amount), leaves every other row unchanged, and writes the table
to the per-user file. -/
theorem edit_replaces_row_at_index (s : AppState) (i : Nat)
    (t_type category : String) (amount : ℚ) (d : Date)
    (hi : i < s.df.length) :
    (editHandler s i t_type category amount d).df.length = s.df.length ∧
    (editHandler s i t_type category amount d).df[i]? =
      some ⟨d, t_type, normCat category, amount⟩ ∧
    (∀ j, j ≠ i → (editHandler s i t_type category amount d).df[j]? = s.df[j]?) ∧
    (editHandler s i t_type category amount d).userFile =
      some (saveTable ((editHandler s i t_type category amount d).df)) := by
  refine ⟨?_, ?_, ?_, rfl⟩
  · simp [editHandler]
  · simp [editHandler, List.getElem?_set, hi]
  · intro j hj
    simp [editHandler, List.getElem?_set, hj, Ne.symm hj]

/-- Witness for the amended C2 at a concrete input. -/
theorem edit_replaces_row_at_index_witness :
    (0 : Nat) < ([⟨⟨2024, 1, 1⟩, "Income", "Food", 5⟩] : List Transaction).length ∧
    ((editHandler ⟨[⟨⟨2024, 1, 1⟩, "Income", "Food", 5⟩], none, none⟩
          0 "Expense" " rent " 3 ⟨2024, 2, 2⟩).df.length =
        ([⟨⟨2024, 1, 1⟩, "Income", "Food", 5⟩] : List Transaction).length ∧
      (editHandler ⟨[⟨⟨2024, 1, 1⟩, "Income", "Food", 5⟩], none, none⟩
          0 "Expense" " rent " 3 ⟨2024, 2, 2⟩).df[0]? =
        some ⟨⟨2024, 2, 2⟩, "Expense", normCat " rent ", 3⟩ ∧
      (∀ j, j ≠ 0 →
        (editHandler ⟨[⟨⟨2024, 1, 1⟩, "Income", "Food", 5⟩], none, none⟩
            0 "Expense" " rent " 3 ⟨2024, 2, 2⟩).df[j]? =
          ([⟨⟨2024, 1, 1⟩, "Income", "Food", 5⟩] : List Transaction)[j]?) ∧
      (editHandler ⟨[⟨⟨2024, 1, 1⟩, "Income", "Food", 5⟩], none, none⟩
          0 "Expense" " rent " 3 ⟨2024, 2, 2⟩).userFile =
        some (saveTable ((editHandler ⟨[⟨⟨2024, 1, 1⟩, "Income", "Food", 5⟩],
          none, none⟩ 0 "Expense" " rent " 3 ⟨2024, 2, 2⟩).df))) :=
  ⟨by decide,
    edit_replaces_row_at_index ⟨[⟨⟨2024, 1, 1⟩, "Income", "Food", 5⟩], none, none⟩
      0 "Expense" " rent " 3 ⟨2024, 2, 2⟩ (by decide)⟩

/-- C4 counterexample: the registration block (app.py line 42) appends the
raw username, not its normalised form: registering `"alice"` on an empty
log appends `"alice"`, whereas the trimmed title-cased form is `"Alice"`. -/
theorem registerUsername_appends_raw_name :
    registerUsername [] "alice" = ["alice"] ∧
    pyTitleStr (pyStripStr "alice") = "Alice" ∧
    ("alice" : String) ≠ "Alice" := by
  refine ⟨?_, ?_, ?_⟩ <;> decide

/-- C4 (amended): registering a username appends exactly one entry — the
raw, un-normalised name — to the global log when the name is not already
present (membership among the stripped stored lines is checked first), and
repeated registration with the same name leaves the log unchanged provided
the name equals its own stripped form (names with surrounding whitespace
are re-appended on every registration because the stored line is read back
stripped). -/
theorem registerUsername_appends_once (log : List String) (username : String)
    (h : pyStripStr username = username) :
    (username ∉ log.map pyStripStr → registerUsername log username = log ++ [username]) ∧
    registerUsername (registerUsername log username) username =
      registerUsername log username := by
  constructor
  · intro hmem
    unfold registerUsername
    rw [if_neg hmem]
  · by_cases hmem : username ∈ log.map pyStripStr
    · simp [registerUsername, hmem]
    · unfold registerUsername
      rw [if_neg hmem, if_pos]
      rw [List.map_append, List.mem_append]
      right
      simp [h]

/-- Witness for the amended C4 at a concrete input. -/
theorem registerUsername_appends_once_witness :
    pyStripStr "Alice" = "Alice" ∧
    (("Alice" : String) ∉ (["Bob"] : List String).map pyStripStr →
      registerUsername ["Bob"] "Alice" = ["Bob"] ++ ["Alice"]) ∧
    registerUsername (registerUsername ["Bob"] "Alice") "Alice" =
      registerUsername ["Bob"] "Alice" :=
  ⟨by decide, (registerUsername_appends_once ["Bob"] "Alice" (by decide)).1,
    (registerUsername_appends_once ["Bob"] "Alice" (by decide)).2⟩

/-- C3 counterexample: the report button handler (app.py line 177) passes
`df` to `generate_pdf` in its stored order — only the on-screen table view
(app.py line 115) sorts by date.  On a table whose rows are not in date
order, the grid rows of the report differ from the date-ascending order the
claim describes. -/
theorem pdf_rows_not_sorted_by_date :
    (generate_pdf "bob"
        [⟨⟨2024, 1, 2⟩, "Expense", "Rent", 2⟩, ⟨⟨2024, 1, 1⟩, "Income", "Pay", 5⟩]
        (income [⟨⟨2024, 1, 2⟩, "Expense", "Rent", 2⟩, ⟨⟨2024, 1, 1⟩, "Income", "Pay", 5⟩])
        (expenses [⟨⟨2024, 1, 2⟩, "Expense", "Rent", 2⟩, ⟨⟨2024, 1, 1⟩, "Income", "Pay", 5⟩])
        (balance [⟨⟨2024, 1, 2⟩, "Expense", "Rent", 2⟩, ⟨⟨2024, 1, 1⟩, "Income", "Pay", 5⟩])).drop 5 =
      List.map pdfRow
        [⟨⟨2024, 1, 2⟩, "Expense", "Rent", 2⟩, ⟨⟨2024, 1, 1⟩, "Income", "Pay", 5⟩] ∧
    (generate_pdf "bob"
        [⟨⟨2024, 1, 2⟩, "Expense", "Rent", 2⟩, ⟨⟨2024, 1, 1⟩, "Income", "Pay", 5⟩]
        (income [⟨⟨2024, 1, 2⟩, "Expense", "Rent", 2⟩, ⟨⟨2024, 1, 1⟩, "Income", "Pay", 5⟩])
        (expenses [⟨⟨2024, 1, 2⟩, "Expense", "Rent", 2⟩, ⟨⟨2024, 1, 1⟩, "Income", "Pay", 5⟩])
        (balance [⟨⟨2024, 1, 2⟩, "Expense", "Rent", 2⟩, ⟨⟨2024, 1, 1⟩, "Income", "Pay", 5⟩])).drop 5 ≠
      specSortedRows
        [⟨⟨2024, 1, 2⟩, "Expense", "Rent", 2⟩, ⟨⟨2024, 1, 1⟩, "Income", "Pay", 5⟩] := by
  exact ⟨rfl, by decide⟩

/-- C3 (amended): for every non-empty table, the generated PDF contains, in
order, the title line naming the user, the three summary lines (total
income, total expenses, balance, two-decimal formatted with the currency
symbol), the header row Date/Type/Category/Amount, and then one grid row
per transaction in the table's stored (insertion) order — not sorted by
date. -/
theorem pdf_structure_rows_in_table_order (username : String)
    (df : List Transaction) (_hne : df ≠ []) :
    (generate_pdf username df (income df) (expenses df) (balance df)).length =
      df.length + 5 ∧
    (generate_pdf username df (income df) (expenses df) (balance df)).take 5 =
      [[pyTitleStr username ++ "\x27s Budget Report"],
       ["Total Income: Rs. " ++ fmt2 (income df)],
       ["Total Expenses: Rs. " ++ fmt2 (expenses df)],
       ["Current Balance: Rs. " ++ fmt2 (balance df)],
       ["Date", "Type", "Category", "Amount"]] ∧
    (generate_pdf username df (income df) (expenses df) (balance df)).drop 5 =
      df.map pdfRow := by
  refine ⟨?_, rfl, rfl⟩
  simp only [generate_pdf, List.length_cons, List.length_map]

/-- Witness for the amended C3 at a concrete input. -/
theorem pdf_structure_witness :
    ([⟨⟨2024, 1, 1⟩, "Income", "Pay", 5⟩] : List Transaction) ≠ [] ∧
    ((generate_pdf "bob" [⟨⟨2024, 1, 1⟩, "Income", "Pay", 5⟩]
        (income [⟨⟨2024, 1, 1⟩, "Income", "Pay", 5⟩])
        (expenses [⟨⟨2024, 1, 1⟩, "Income", "Pay", 5⟩])
        (balance [⟨⟨2024, 1, 1⟩, "Income", "Pay", 5⟩])).length =
      ([⟨⟨2024, 1, 1⟩, "Income", "Pay", 5⟩] : List Transaction).length + 5 ∧
    (generate_pdf "bob" [⟨⟨2024, 1, 1⟩, "Income", "Pay", 5⟩]
        (income [⟨⟨2024, 1, 1⟩, "Income", "Pay", 5⟩])
        (expenses [⟨⟨2024, 1, 1⟩, "Income", "Pay", 5⟩])
        (balance [⟨⟨2024, 1, 1⟩, "Income", "Pay", 5⟩])).take 5 =
      [[pyTitleStr "bob" ++ "\x27s Budget Report"],
       ["Total Income: Rs. " ++ fmt2 (income [⟨⟨2024, 1, 1⟩, "Income", "Pay", 5⟩])],
       ["Total Expenses: Rs. " ++ fmt2 (expenses [⟨⟨2024, 1, 1⟩, "Income", "Pay", 5⟩])],
       ["Current Balance: Rs. " ++ fmt2 (balance [⟨⟨2024, 1, 1⟩, "Income", "Pay", 5⟩])],
       ["Date", "Type", "Category", "Amount"]] ∧
    (generate_pdf "bob" [⟨⟨2024, 1, 1⟩, "Income", "Pay", 5⟩]
        (income [⟨⟨2024, 1, 1⟩, "Income", "Pay", 5⟩])
        (expenses [⟨⟨2024, 1, 1⟩, "Income", "Pay", 5⟩])
        (balance [⟨⟨2024, 1, 1⟩, "Income", "Pay", 5⟩])).drop 5 =
      List.map pdfRow [⟨⟨2024, 1, 1⟩, "Income", "Pay", 5⟩]) :=
  ⟨by decide,
    pdf_structure_rows_in_table_order "bob" [⟨⟨2024, 1, 1⟩, "Income", "Pay", 5⟩]
      (by decide)⟩

/-- C5 counterexample: `pd.read_csv` infers a dtype per column, so the
table whose single row has the (non-empty, invariant-respecting) category
`"007"` — reachable by adding a transaction with category input `"007"`,
which `strip().title()` leaves unchanged — is not reproduced by a
save/load round trip: the Category column is all-integer, comes back as
int64, and the cell is the number `7`, not the string `"007"`.  (An NA
token such as the category `"None"`, reachable from input `"none"`, fails
the round trip too, coming back as NaN.) -/
theorem save_load_numeric_category_not_roundtrip :
    loadTable (saveTable [⟨⟨2024, 1, 1⟩, "Income", "007", 1⟩]) =
      [⟨⟨2024, 1, 1⟩, Cell.str "Income", Cell.intVal 7, 1⟩] ∧
    loadTable (saveTable [⟨⟨2024, 1, 1⟩, "Income", "007", 1⟩]) ≠
      List.map toLoaded [⟨⟨2024, 1, 1⟩, "Income", "007", 1⟩] := by
  constructor <;> decide

/-- C5 (amended): for every non-empty table whose rows' Type and Category
strings are plain text — not pandas NA tokens and not integer-, float- or
boolean-parseable (so both columns keep `object` dtype) — saving to the
per-user file and loading it back reproduces the table exactly: same
number of rows, same field values, same order. -/
theorem save_load_roundtrip_of_plain (df : List Transaction) (_hne : df ≠ [])
    (h : ∀ t ∈ df, plainRow t) :
    loadTable (saveTable df) = df.map toLoaded :=
  loadTable_saveTable h

/-- Witness for the amended C5 at a concrete input. -/
theorem save_load_roundtrip_witness :
    ([⟨⟨2024, 1, 1⟩, "Income", "Salary", 5⟩, ⟨⟨2024, 1, 2⟩, "Expense", "Rent", 3⟩] :
        List Transaction) ≠ [] ∧
    (∀ t ∈ ([⟨⟨2024, 1, 1⟩, "Income", "Salary", 5⟩,
        ⟨⟨2024, 1, 2⟩, "Expense", "Rent", 3⟩] : List Transaction), plainRow t) ∧
    loadTable (saveTable [⟨⟨2024, 1, 1⟩, "Income", "Salary", 5⟩,
        ⟨⟨2024, 1, 2⟩, "Expense", "Rent", 3⟩]) =
      List.map toLoaded [⟨⟨2024, 1, 1⟩, "Income", "Salary", 5⟩,
        ⟨⟨2024, 1, 2⟩, "Expense", "Rent", 3⟩] :=
  ⟨by decide, by decide,
    save_load_roundtrip_of_plain
      [⟨⟨2024, 1, 1⟩, "Income", "Salary", 5⟩, ⟨⟨2024, 1, 2⟩, "Expense", "Rent", 3⟩]
      (by decide) (by decide)⟩

/-- C8 counterexample: after deleting index 1 from a two-row table whose
remaining row has category `"007"`, loading the saved file does not yield
exactly the remaining row: the Category column of the saved file is now
all-integer, so `pd.read_csv` infers int64 and the cell comes back as the
number `7`, not the string `"007"`.  (Before the deletion the mixed column
`["007", "Rent"]` kept `object` dtype — the deletion itself changes the
inferred dtype.) -/
theorem delete_load_numeric_category_mismatch :
    loadTable (saveTable ((deleteHandler
        ⟨[⟨⟨2024, 1, 1⟩, "Income", "007", 1⟩,
          ⟨⟨2024, 1, 2⟩, "Expense", "Rent", 2⟩], none, none⟩ 1).df)) =
      [⟨⟨2024, 1, 1⟩, Cell.str "Income", Cell.intVal 7, 1⟩] ∧
    loadTable (saveTable ((deleteHandler
        ⟨[⟨⟨2024, 1, 1⟩, "Income", "007", 1⟩,
          ⟨⟨2024, 1, 2⟩, "Expense", "Rent", 2⟩], none, none⟩ 1).df)) ≠
      List.map toLoaded
        (([⟨⟨2024, 1, 1⟩, "Income", "007", 1⟩,
          ⟨⟨2024, 1, 2⟩, "Expense", "Rent", 2⟩] : List Transaction).eraseIdx 1) := by
  constructor <;> decide

/-- C8 (amended): for every table whose rows' Type and Category strings are
plain text (not pandas NA tokens and not integer-, float- or
boolean-parseable) and every valid index `i`, deleting row `i`
(`drop` + `reset_index`, app.py line 92) and then loading the saved file
yields a table of length `n − 1` consisting of exactly the other rows in
their original relative order, with positions compacted. -/
theorem delete_then_load_of_plain (s : AppState) (i : Nat)
    (hi : i < s.df.length) (h : ∀ t ∈ s.df, plainRow t) :
    loadTable (saveTable ((deleteHandler s i).df)) =
      (s.df.take i ++ s.df.drop (i + 1)).map toLoaded ∧
    (loadTable (saveTable ((deleteHandler s i).df))).length = s.df.length - 1 := by
  have hg : ∀ t ∈ s.df.eraseIdx i, plainRow t := by
    intro t ht
    rw [List.eraseIdx_eq_take_drop_succ] at ht
    rcases List.mem_append.mp ht with ht | ht
    · exact h t (List.mem_of_mem_take ht)
    · exact h t (List.mem_of_mem_drop ht)
  have hdf : (deleteHandler s i).df = s.df.eraseIdx i := rfl
  constructor
  · rw [hdf, loadTable_saveTable hg, List.eraseIdx_eq_take_drop_succ]
  · rw [hdf, loadTable_saveTable hg, List.length_map, List.length_eraseIdx]
    simp [hi]

/-- Witness for the amended C8 at a concrete input. -/
theorem delete_then_load_witness :
    (0 : Nat) < (⟨[⟨⟨2024, 1, 1⟩, "Income", "Salary", 5⟩,
        ⟨⟨2024, 1, 2⟩, "Expense", "Rent", 3⟩], none, none⟩ : AppState).df.length ∧
    (∀ t ∈ (⟨[⟨⟨2024, 1, 1⟩, "Income", "Salary", 5⟩,
        ⟨⟨2024, 1, 2⟩, "Expense", "Rent", 3⟩], none, none⟩ : AppState).df, plainRow t) ∧
    (loadTable (saveTable ((deleteHandler
        ⟨[⟨⟨2024, 1, 1⟩, "Income", "Salary", 5⟩,
          ⟨⟨2024, 1, 2⟩, "Expense", "Rent", 3⟩], none, none⟩ 0).df)) =
      ((⟨[⟨⟨2024, 1, 1⟩, "Income", "Salary", 5⟩,
          ⟨⟨2024, 1, 2⟩, "Expense", "Rent", 3⟩], none, none⟩ : AppState).df.take 0 ++
        (⟨[⟨⟨2024, 1, 1⟩, "Income", "Salary", 5⟩,
          ⟨⟨2024, 1, 2⟩, "Expense", "Rent", 3⟩], none, none⟩ : AppState).df.drop (0 + 1)).map
          toLoaded ∧
    (loadTable (saveTable ((deleteHandler
        ⟨[⟨⟨2024, 1, 1⟩, "Income", "Salary", 5⟩,
          ⟨⟨2024, 1, 2⟩, "Expense", "Rent", 3⟩], none, none⟩ 0).df))).length =
      (⟨[⟨⟨2024, 1, 1⟩, "Income", "Salary", 5⟩,
        ⟨⟨2024, 1, 2⟩, "Expense", "Rent", 3⟩], none, none⟩ : AppState).df.length - 1) :=
  ⟨by decide, by decide,
    delete_then_load_of_plain
      ⟨[⟨⟨2024, 1, 1⟩, "Income", "Salary", 5⟩,
        ⟨⟨2024, 1, 2⟩, "Expense", "Rent", 3⟩], none, none⟩ 0
      (by decide) (by decide)⟩

end BudgetTracker
